import Mathlib

/-!
Shallow embedding of the VRPC agent (`vrpc/VrpcAgent.js`) and of the adapter
interface it drives.  State is passed explicitly; every broker interaction
(publish / subscribe / unsubscribe) and every emitted event is recorded as an
`Action` in the order the source performs it.  JavaScript peculiarities that
matter for the verified properties (reading the absent `length` property of a
`Set`, `String.prototype.slice` with a negative end index, falsiness of
`undefined` and of the empty string) are modelled by dedicated helpers.
-/

namespace Vrpc

/-- A JSON-transportable JavaScript value, plus a marker for values on which
`JSON.stringify` throws (circular structures, BigInt, ...). -/
inductive JsValue where
  | null
  | bool (b : Bool)
  | num (n : Int)
  | str (s : String)
  | nonSerializable
deriving DecidableEq

/-- `JSON.stringify` succeeds on the value. -/
def JsValue.serializable : JsValue → Bool
  | .nonSerializable => false
  | _ => true

/-- String interpolation / key coercion of an optional JavaScript value, as it
happens when an `undefined` or a value reaches a template literal. -/
def asId : Option JsValue → String
  | none => "undefined"
  | some .null => "null"
  | some (.bool true) => "true"
  | some (.bool false) => "false"
  | some (.num n) => toString n
  | some (.str s) => s
  | some .nonSerializable => "[object Object]"

/-- Split a character list on a separator, JavaScript `String.split` style:
the empty list yields one empty field. -/
def splitListOn (sep : Char) : List Char → List (List Char)
  | [] => [[]]
  | c :: cs =>
    match splitListOn sep cs with
    | [] => if c = sep then [[], []] else [[c]]
    | t :: ts => if c = sep then [] :: t :: ts else (c :: t) :: ts

/-- JavaScript `topic.split('/')` (structural, so that concrete runs reduce
in the kernel). -/
def strSplitOn (s : String) (sep : Char) : List String :=
  (splitListOn sep s.toList).map fun l => ⟨l⟩

/-- JavaScript `s.slice(0, -k)`: drop the last `k` UTF-16 units (all topics
here are ASCII, so characters coincide with units). -/
def jsSliceNegEnd (s : String) (k : Nat) : String :=
  ⟨s.toList.take (s.toList.length - k)⟩

/-- A JavaScript `Set` has a `size` property but no `length` property, so
reading `s.length` yields `undefined`.  Property access is modelled as an
`Option Nat` with `none` for the absent property. -/
def jsSetLength (_ : List String) : Option Nat := none

/-- JavaScript strict equality `x === 0` where `x` may be `undefined`. -/
def jsStrictEqZero : Option Nat → Bool
  | some n => n == 0
  | none => false

/-- JavaScript falsiness of an optional string (`undefined` and `''` are
falsy). -/
def jsFalsyStr : Option String → Bool
  | none => true
  | some s => s = ""

/-- One parsed broker message / RPC envelope.  `args` models the positional
`data._1, _2, ...` keys in order, `r`/`e` the `data.r`/`data.e` keys; `status`
models the `status` key carried by `__clientInfo__` payloads. -/
structure Envelope where
  args : List JsValue := []
  r : Option JsValue := none
  e : Option String := none
  context : String := ""
  method : String := ""
  sender : String := ""
  id : String := ""
  status : Option String := none
deriving DecidableEq

/-- Association-list lookup (JavaScript `Map.get`). -/
def alookup (k : String) : List (String × α) → Option α
  | [] => none
  | (k', v) :: rest => if k' = k then some v else alookup k rest

/-- Association-list update (JavaScript `Map.set`: overwrite in place,
append when new). -/
def aset (k : String) (v : α) : List (String × α) → List (String × α)
  | [] => [(k, v)]
  | (k', v') :: rest => if k' = k then (k, v) :: rest else (k', v') :: aset k v rest

/-- Association-list removal (JavaScript `Map.delete`). -/
def aremove (k : String) (l : List (String × α)) : List (String × α) :=
  l.filter fun p => p.1 ≠ k

/-- JavaScript `Set.add` (insertion order preserved, no duplicates). -/
def jsSetAdd (s : List String) (x : String) : List String :=
  if x ∈ s then s else s ++ [x]

/-- Modelled from the spec: the state of `VrpcAdapter` (file
`vrpc/VrpcAdapter.js` is not part of the sources; §3 and §4.1 of the
specification describe its registry).  `impl` gives, per `(context, method)`,
the user-code outcome of a dispatched call: an error message (`Sum.inl`) or a
return value (`Sum.inr`); pairs absent from `impl` return `null`.
`listeners` holds the `(clientId, callbackId)` event registrations. -/
structure Adapter where
  classes : List String := []
  instances : List (String × String) := []
  staticFns : List (String × List String) := []
  memberFns : List (String × List String) := []
  impl : List ((String × String) × Sum String JsValue) := []
  listeners : List (String × String) := []
  nextId : Nat := 0
deriving DecidableEq

/-- Function table of a class (empty when the class is unknown). -/
def fnsOf (tbl : List (String × List String)) (c : String) : List String :=
  (alookup c tbl).getD []

/-- `VrpcAdapter.getAvailableInstances`: the identifiers of the instances of
a class, in registration order. -/
def instancesOf (a : Adapter) (c : String) : List String :=
  (a.instances.filter fun p => p.2 = c).map fun p => p.1

/-- Association-list lookup keyed by a `(context, method)` pair. -/
def alookup2 (k : String × String) : List ((String × String) × α) → Option α
  | [] => none
  | (k', v) :: rest => if k' = k then some v else alookup2 k rest

/-- Modelled from the spec: `VrpcAdapter._call` (§4.1 dispatch algorithm and
§8: the mutated envelope carries either `data.r` or `data.e`, never both,
never neither, and the call never throws for user-visible errors).
Lifecycle methods follow the fixed semantics of §4.1 step 5. -/
def adapterCall (a : Adapter) (env : Envelope) : Adapter × Envelope :=
  if env.method = "__create__" then
    if env.context ∈ a.classes then
      let newId := env.context ++ "-" ++ toString a.nextId
      ({ a with instances := a.instances ++ [(newId, env.context)], nextId := a.nextId + 1 },
        { env with r := some (.str newId), e := none })
    else (a, { env with r := none, e := some ("Could not find context: " ++ env.context) })
  else if env.method = "__createNamed__" then
    if env.context ∈ a.classes then
      let name := asId env.args.head?
      let a' := if (alookup name a.instances).isSome then a
        else { a with instances := a.instances ++ [(name, env.context)] }
      (a', { env with r := some (.str name), e := none })
    else (a, { env with r := none, e := some ("Could not find context: " ++ env.context) })
  else if env.method = "__getNamed__" then
    let name := asId env.args.head?
    if (alookup name a.instances).isSome then
      (a, { env with r := some (.str name), e := none })
    else (a, { env with r := none, e := some ("Could not find instance: " ++ name) })
  else if env.method = "__delete__" then
    let name := asId env.args.head?
    if (alookup name a.instances).isSome then
      ({ a with instances := aremove name a.instances },
        { env with r := some (.bool true), e := none })
    else (a, { env with r := some (.bool false), e := none })
  else
    if env.context ∈ a.classes then
      if env.method ∈ fnsOf a.staticFns env.context then
        match alookup2 (env.context, env.method) a.impl with
        | some (.inl err) => (a, { env with r := none, e := some err })
        | some (.inr v) => (a, { env with r := some v, e := none })
        | none => (a, { env with r := some .null, e := none })
      else (a, { env with r := none, e := some ("Could not find function: " ++ env.method) })
    else
      match alookup env.context a.instances with
      | some cls =>
        if env.method ∈ fnsOf a.memberFns cls then
          match alookup2 (env.context, env.method) a.impl with
          | some (.inl err) => (a, { env with r := none, e := some err })
          | some (.inr v) => (a, { env with r := some v, e := none })
          | none => (a, { env with r := some .null, e := none })
        else (a, { env with r := none, e := some ("Could not find function: " ++ env.method) })
      | none => (a, { env with r := none, e := some ("Could not find context: " ++ env.context) })

/-- Modelled from the spec: `VrpcAdapter._unregisterEventListeners`
(§4.1: remove all event subscriptions registered on behalf of a client). -/
def unregisterEventListeners (a : Adapter) (clientId : String) : Adapter :=
  { a with listeners := a.listeners.filter fun p => p.1 ≠ clientId }

/-- What a reply publication carries, structurally (the source serializes to
JSON text; the payload structure is what the properties are about). -/
inductive Payload where
  | env (e : Envelope)
  | agentInfo (status : String)
  | classInfo (className : String) (instances : List String)
  | empty
deriving DecidableEq

/-- One observable effect of the agent, in source order: an MQTT publish
(topic, payload, retain flag), an MQTT (un)subscription, or an emitted
`EventEmitter` event. -/
inductive Action where
  | publish (topic : String) (payload : Payload) (retain : Bool)
  | subscribe (topic : String)
  | unsubscribe (topic : String)
  | emit (event : String)
deriving DecidableEq

/-- The mutable state of a `VrpcAgent`: the two client-tracker maps
(`clientId → Set<instanceId>`, insertion-ordered), the reconnect flag, and
the adapter registry it drives. -/
structure AgentState where
  domain : String
  agent : String
  unnamedInstances : List (String × List String) := []
  namedInstances : List (String × List String) := []
  isReconnect : Bool := false
  adapter : Adapter := {}
deriving DecidableEq

/-- `this._baseTopic` as set in the constructor. -/
def baseTopic (st : AgentState) : String :=
  st.domain ++ "/" ++ st.agent

/-- The broker-side subscription set after one action (subscriptions are
stored at the broker, not in the agent). -/
def applySubAction (subs : List String) : Action → List String
  | .subscribe t => if t ∈ subs then subs else subs ++ [t]
  | .unsubscribe t => subs.filter fun t' => t' ≠ t
  | _ => subs

/-- The broker-side subscription set after a list of actions. -/
def applySubActions (subs : List String) (acts : List Action) : List String :=
  acts.foldl applySubAction subs

/-- The reply envelopes a list of actions publishes to a given sender topic. -/
def envReplies (sender : String) (acts : List Action) : List Envelope :=
  acts.filterMap fun a =>
    match a with
    | .publish t (.env e) _ => if t = sender then some e else none
    | _ => none

/-- `VrpcAgent._subscribeToMethodsOfNewInstance`. -/
def subscribeToMethodsOfNewInstance (st : AgentState) (className inst : String) :
    List Action :=
  [.subscribe (baseTopic st ++ "/" ++ className ++ "/" ++ inst ++ "/+")]

/-- `VrpcAgent._unsubscribeMethodsOfDeletedInstance`. -/
def unsubscribeMethodsOfDeletedInstance (st : AgentState) (className inst : String) :
    List Action :=
  [.unsubscribe (baseTopic st ++ "/" ++ className ++ "/" ++ inst ++ "/+")]

/-- `VrpcAgent._registerUnnamedInstance`. -/
def registerUnnamedInstance (st : AgentState) (instanceId clientId : String) :
    AgentState × List Action :=
  match alookup clientId st.unnamedInstances with
  | some entry =>
    ({ st with unnamedInstances := aset clientId (jsSetAdd entry instanceId) st.unnamedInstances }, [])
  | none =>
    let st' := { st with unnamedInstances := aset clientId [instanceId] st.unnamedInstances }
    if (alookup clientId st.namedInstances).isSome then (st', [])
    else (st', [.subscribe (clientId ++ "/__clientInfo__")])

/-- `VrpcAgent._registerNamedInstance`. -/
def registerNamedInstance (st : AgentState) (instanceId clientId : String) :
    AgentState × List Action :=
  match alookup clientId st.namedInstances with
  | some entry =>
    ({ st with namedInstances := aset clientId (jsSetAdd entry instanceId) st.namedInstances }, [])
  | none =>
    let st' := { st with namedInstances := aset clientId [instanceId] st.namedInstances }
    if (alookup clientId st.unnamedInstances).isSome then (st', [])
    else (st', [.subscribe (clientId ++ "/__clientInfo__")])

/-- `VrpcAgent._hasNamedInstance`. -/
def hasNamedInstance (st : AgentState) (instanceId : String) : Bool :=
  st.namedInstances.any fun p => instanceId ∈ p.2

/-- The `this._namedInstances.forEach(...)` pass of
`VrpcAgent._unregisterInstance` (source lines 606-616): every set holding the
instance id is mutated in place; the nested branch would drop the map entry
for `clientId` and release the `__clientInfo__` subscription, but it is
guarded by `v.length === 0`, which compares the absent `length` property of a
`Set` (i.e. `undefined`) with `0`. -/
def namedOfflinePass (instanceId clientId : String) :
    List (String × List String) → List (String × List String) × List Action
  | [] => ([], [])
  | (k, v) :: rest =>
    let r := namedOfflinePass instanceId clientId rest
    if instanceId ∈ v then
      let v' := v.filter fun x => x ≠ instanceId
      if jsStrictEqZero (jsSetLength v') then
        (aremove clientId ((k, v') :: r.1),
          .unsubscribe (clientId ++ "/__clientInfo__") :: r.2)
      else ((k, v') :: r.1, r.2)
    else ((k, v) :: r.1, r.2)

/-- The named-instances half of `VrpcAgent._unregisterInstance`: the returned
`Bool` is the source's `found` flag (the function's return value). -/
def unregisterNamedBranch (st : AgentState) (instanceId clientId : String) :
    AgentState × Bool × List Action :=
  let found := st.namedInstances.any fun p => instanceId ∈ p.2
  let r := namedOfflinePass instanceId clientId st.namedInstances
  ({ st with namedInstances := r.1 }, found, r.2)

/-- `VrpcAgent._unregisterInstance`.  In the unnamed branch the source reads
`entryUnnamed.length === 0` on a `Set` (see `jsSetLength`), so the guarded
map-entry removal and unsubscription are dead code; the branch returns
`false`. -/
def unregisterInstance (st : AgentState) (instanceId clientId : String) :
    AgentState × Bool × List Action :=
  match alookup clientId st.unnamedInstances with
  | some entry =>
    if instanceId ∈ entry then
      let entry' := entry.filter fun x => x ≠ instanceId
      let st₁ := { st with unnamedInstances := aset clientId entry' st.unnamedInstances }
      if jsStrictEqZero (jsSetLength entry') then
        ({ st₁ with unnamedInstances := aremove clientId st₁.unnamedInstances }, false,
          [.unsubscribe (clientId ++ "/__clientInfo__")])
      else (st₁, false, [])
    else unregisterNamedBranch st instanceId clientId
  | none => unregisterNamedBranch st instanceId clientId

/-- `VrpcAgent._handleClientInfoMessage`.  The source recovers the client id
with `topic.slice(0, -9)`, although the suffix `/__clientInfo__` it means to
strip is 15 characters long. -/
def handleClientInfoMessage (st : AgentState) (topic : String) (msg : Envelope) :
    AgentState × List Action :=
  let clientId := jsSliceNegEnd topic 9
  if msg.status = some "offline" then
    let a₁ :=
      match alookup clientId st.unnamedInstances with
      | some entry =>
        entry.foldl
          (fun a instId => (adapterCall a { args := [.str instId], method := "__delete__" }).1)
          st.adapter
      | none => st.adapter
    let a₂ := unregisterEventListeners a₁ clientId
    ({ st with adapter := a₂ }, [.unsubscribe (clientId ++ "/__clientInfo__")])
  else (st, [])

/-- The envelope after the topic-derived preparation of
`VrpcAgent._handleMessage` lines 483-484: `context` is the class name for
static calls and the instance token otherwise, `method` is the last topic
level. -/
def prepared (topic : String) (msg : Envelope) : Envelope :=
  let tokens := strSplitOn topic '/'
  { msg with
      context := if tokens.getD 3 "" = "__static__" then tokens.getD 2 "" else tokens.getD 3 "",
      method := tokens.getD 4 "" }

/-- The life-cycle `switch` of `VrpcAgent._handleMessage` (lines 490-522),
run after the adapter call on the mutated envelope `json`.  Returns the new
state, the actions performed, and the `publishClassInfo` flag. -/
def lifecycleStep (st : AgentState) (className inst method : String) (json : Envelope) :
    AgentState × List Action × Bool :=
  if method = "__create__" then
    let instanceId := asId json.r
    let a₁ := subscribeToMethodsOfNewInstance st className instanceId
    let r := registerUnnamedInstance st instanceId json.sender
    (r.1, a₁ ++ r.2, false)
  else if method = "__createNamed__" then
    let instanceId := asId json.r
    if hasNamedInstance st instanceId then
      let r := registerNamedInstance st instanceId json.sender
      (r.1, r.2, false)
    else
      let a₁ := subscribeToMethodsOfNewInstance st className instanceId
      let r := registerNamedInstance st instanceId json.sender
      (r.1, a₁ ++ r.2, true)
  else if method = "__getNamed__" then
    if jsFalsyStr json.e then
      let r := registerNamedInstance st (asId json.args.head?) json.sender
      (r.1, r.2, false)
    else (st, [], false)
  else if method = "__delete__" then
    let a₁ := unsubscribeMethodsOfDeletedInstance st className inst
    let r := unregisterInstance st (asId json.args.head?) json.sender
    (r.1, a₁ ++ r.2.2, r.2.1)
  else (st, [], false)

/-- The sentinel replacing a return value whose serialization failed. -/
def notSerializableSentinel : String := "__vrpc::not-serializable__"

/-- `JSON.stringify(json)` succeeds on the envelope's `data` (its `e` field
is a string and always serializes; only `args` and `r` can fail). -/
def Envelope.dataSerializable (env : Envelope) : Bool :=
  env.args.all JsValue.serializable &&
    (match env.r with | some v => v.serializable | none => true)

/-- Lines 523-530 of `VrpcAgent._handleMessage`: serialize the mutated
envelope; on failure substitute `data.r` with the sentinel and retry.  A
`none` result models the second `JSON.stringify` also throwing, which the
outer catch swallows. -/
def serializeFix (env : Envelope) : Option Envelope :=
  if env.dataSerializable then some env
  else
    let env' := { env with r := some (.str notSerializableSentinel) }
    if env'.dataSerializable then some env' else none

/-- `VrpcAgent._publishAgentInfoMessage` (and the offline variant used by
`end` and the last-will). -/
def publishAgentInfo (st : AgentState) (status : String) : Action :=
  .publish (baseTopic st ++ "/__agentInfo__") (.agentInfo status) true

/-- `VrpcAgent._publishClassInfoMessage`. -/
def publishClassInfoMessage (st : AgentState) (className : String) : Action :=
  .publish (baseTopic st ++ "/" ++ className ++ "/__classInfo__")
    (.classInfo className (instancesOf st.adapter className)) true

/-- The RPC body of `VrpcAgent._handleMessage` (run when the topic has five
levels): dispatch through the adapter, run the life-cycle bookkeeping, then
publish the reply with the class-info republication before it for
`__delete__` and after it for `__createNamed__`. -/
def handleRpc (st : AgentState) (topic : String) (msg : Envelope) :
    AgentState × List Action :=
  let tokens := strSplitOn topic '/'
  let className := tokens.getD 2 ""
  let inst := tokens.getD 3 ""
  let method := tokens.getD 4 ""
  let json := prepared topic msg
  let json' := (adapterCall st.adapter json).2
  let st₁ := { st with adapter := (adapterCall st.adapter json).1 }
  let step := lifecycleStep st₁ className inst method json'
  match serializeFix json' with
  | none => (step.1, step.2.1)
  | some outEnv =>
    let ciBefore := if step.2.2 ∧ method = "__delete__" then [publishClassInfoMessage step.1 className] else []
    let ciAfter := if step.2.2 ∧ method = "__createNamed__" then [publishClassInfoMessage step.1 className] else []
    (step.1, step.2.1 ++ ciBefore ++ [.publish json'.sender (.env outEnv) false] ++ ciAfter)

/-- `VrpcAgent._handleMessage`: route `__clientInfo__` messages, ignore
topics that are not five levels deep, and otherwise run the RPC body. -/
def handleMessage (st : AgentState) (topic : String) (msg : Envelope) :
    AgentState × List Action :=
  let tokens := strSplitOn topic '/'
  if tokens.length = 4 ∧ tokens.getD 3 "" = "__clientInfo__" then
    handleClientInfoMessage st topic msg
  else if tokens.length = 5 then
    handleRpc st topic msg
  else (st, [])

/-- `VrpcAgent._generateTopics`. -/
def generateTopics (st : AgentState) : List String :=
  st.adapter.classes.flatMap fun c =>
    (fnsOf st.adapter.staticFns c).map fun f =>
      baseTopic st ++ "/" ++ c ++ "/__static__/" ++ f

/-- `VrpcAgent._handleConnect`: after a reconnect, republish the online
agent info only and clear the flag; on first connect, subscribe to the
static topics, publish agent info and all class infos. -/
def handleConnect (st : AgentState) : AgentState × List Action :=
  if st.isReconnect then
    ({ st with isReconnect := false },
      [publishAgentInfo st "online", .emit "connect"])
  else
    let topics := generateTopics st
    let subActs := if topics.length > 0 then topics.map Action.subscribe else []
    (st, subActs ++ [publishAgentInfo st "online"]
      ++ st.adapter.classes.map (publishClassInfoMessage st) ++ [.emit "connect"])

/-- `VrpcAgent._handleReconnect`. -/
def handleReconnect (st : AgentState) : AgentState × List Action :=
  ({ st with isReconnect := true }, [.emit "reconnect"])

/-- The part of the `mqtt` client object that `VrpcAgent.end` inspects. -/
structure MqttClient where
  connected : Bool
deriving DecidableEq

/-- `VrpcAgent.end`: with no client or a disconnected client, emit `end` and
return at once; otherwise publish the retained offline agent info, clear the
retained slots when `unregister` is set, and end the client (whose `end`
event the agent re-emits). -/
def agentEnd (st : AgentState) (client : Option MqttClient) (unregister : Bool) :
    List Action :=
  match client with
  | none => [.emit "end"]
  | some c =>
    if c.connected = false then [.emit "end"]
    else
      [publishAgentInfo st "offline"]
      ++ (if unregister then
            Action.publish (baseTopic st ++ "/__agentInfo__") .empty true ::
              st.adapter.classes.map (fun cl =>
                Action.publish (baseTopic st ++ "/" ++ cl ++ "/__classInfo__") .empty true)
          else [])
      ++ [.emit "end"]

/-- `VrpcAgent._validateDomain` (constructor helper): `undefined` and the
empty string are falsy, and the domain must avoid `+ / # *`. -/
def validateDomain (domain : Option String) : Except String Unit :=
  if jsFalsyStr domain then .error "The domain must be specified"
  else if (domain.getD "").toList.any (fun c => c ∈ ['+', '/', '#', '*']) then
    .error "The domain must NOT contain any of those characters: \"+\", \"/\", \"#\", \"*\""
  else .ok ()

/-- `VrpcAgent._validateAgent`. -/
def validateAgent (agent : Option String) : Except String Unit :=
  if jsFalsyStr agent then .error "The agent must be specified"
  else if (agent.getD "").toList.any (fun c => c ∈ ['+', '/', '#', '*']) then
    .error "The agent must NOT contain any of those characters: \"+\", \"/\", \"#\", \"*\""
  else .ok ()

/-- The `VrpcAgent` constructor: validate domain and agent (throwing on
failure), then initialize the tracker maps empty and the reconnect flag
false.  Nothing after the validations can throw. -/
def constructAgent (domain agent : Option String) (adapter : Adapter) :
    Except String AgentState :=
  match validateDomain domain with
  | .error e => .error e
  | .ok _ =>
    match validateAgent agent with
    | .error e => .error e
    | .ok _ =>
      .ok { domain := domain.getD "", agent := agent.getD "",
            unnamedInstances := [], namedInstances := [],
            isReconnect := false, adapter := adapter }

/-! ### Helper lemmas -/

/-- An action is an MQTT publication. -/
def Action.isPub : Action → Bool
  | .publish _ _ _ => true
  | _ => false

/-- A dispatched reply envelope carries either `data.r` or `data.e`, never
both, never neither. -/
def replyWellFormed (env : Envelope) : Prop :=
  (env.r ≠ none ∧ env.e = none) ∨ (env.r = none ∧ env.e ≠ none)

theorem envReplies_append (s : String) (l₁ l₂ : List Action) :
    envReplies s (l₁ ++ l₂) = envReplies s l₁ ++ envReplies s l₂ := by
  simp [envReplies]

theorem envReplies_eq_nil {s : String} {acts : List Action}
    (h : ∀ a ∈ acts, a.isPub = false) : envReplies s acts = [] := by
  induction acts with
  | nil => rfl
  | cons a rest ih =>
    have ha := h a (List.mem_cons_self a rest)
    have hrest := ih fun b hb => h b (List.mem_cons_of_mem a hb)
    cases a <;> simp_all [envReplies, Action.isPub]

theorem envReplies_classInfo_ite (s : String) (c : Prop) [Decidable c]
    (st : AgentState) (cn : String) :
    envReplies s (if c then [publishClassInfoMessage st cn] else []) = [] := by
  split <;> simp [envReplies, publishClassInfoMessage]

theorem envReplies_single_env {s t : String} (env : Envelope) (b : Bool) (h : t = s) :
    envReplies s [.publish t (.env env) b] = [env] := by
  simp [envReplies, h]

theorem registerUnnamedInstance_acts (st : AgentState) (i c : String) :
    ∀ a ∈ (registerUnnamedInstance st i c).2, a.isPub = false := by
  unfold registerUnnamedInstance
  split
  · simp
  · split <;> simp [Action.isPub]

theorem registerNamedInstance_acts (st : AgentState) (i c : String) :
    ∀ a ∈ (registerNamedInstance st i c).2, a.isPub = false := by
  unfold registerNamedInstance
  split
  · simp
  · split <;> simp [Action.isPub]

theorem namedOfflinePass_acts (i c : String) (m : List (String × List String)) :
    ∀ a ∈ (namedOfflinePass i c m).2, a.isPub = false := by
  induction m with
  | nil => simp [namedOfflinePass]
  | cons p rest ih =>
    obtain ⟨k, v⟩ := p
    unfold namedOfflinePass
    simp only [jsSetLength, jsStrictEqZero]
    split <;> simp_all

theorem unregisterNamedBranch_acts (st : AgentState) (i c : String) :
    ∀ a ∈ (unregisterNamedBranch st i c).2.2, a.isPub = false := by
  unfold unregisterNamedBranch
  exact namedOfflinePass_acts i c st.namedInstances

theorem unregisterInstance_acts (st : AgentState) (i c : String) :
    ∀ a ∈ (unregisterInstance st i c).2.2, a.isPub = false := by
  unfold unregisterInstance
  split
  · split
    · simp [jsSetLength, jsStrictEqZero]
    · exact unregisterNamedBranch_acts st i c
  · exact unregisterNamedBranch_acts st i c

theorem lifecycleStep_acts (st : AgentState) (cn i m : String) (json : Envelope) :
    ∀ a ∈ (lifecycleStep st cn i m json).2.1, a.isPub = false := by
  unfold lifecycleStep subscribeToMethodsOfNewInstance unsubscribeMethodsOfDeletedInstance
  dsimp only
  split
  · intro a ha
    rcases List.mem_append.mp ha with h | h
    · simp_all [Action.isPub]
    · exact registerUnnamedInstance_acts _ _ _ a h
  · split
    · split
      · exact registerNamedInstance_acts _ _ _
      · intro a ha
        rcases List.mem_append.mp ha with h | h
        · simp_all [Action.isPub]
        · exact registerNamedInstance_acts _ _ _ a h
    · split
      · split
        · exact registerNamedInstance_acts _ _ _
        · simp
      · split
        · intro a ha
          rcases List.mem_append.mp ha with h | h
          · simp_all [Action.isPub]
          · exact unregisterInstance_acts _ _ _ a h
        · simp

theorem adapterCall_args (a : Adapter) (env : Envelope) :
    (adapterCall a env).2.args = env.args := by
  unfold adapterCall
  dsimp only
  repeat' split
  all_goals rfl

theorem adapterCall_sender (a : Adapter) (env : Envelope) :
    (adapterCall a env).2.sender = env.sender := by
  unfold adapterCall
  dsimp only
  repeat' split
  all_goals rfl

theorem adapterCall_wf (a : Adapter) (env : Envelope) :
    replyWellFormed (adapterCall a env).2 := by
  unfold adapterCall replyWellFormed
  dsimp only
  repeat' split
  all_goals simp

theorem prepared_args (topic : String) (msg : Envelope) :
    (prepared topic msg).args = msg.args := by
  simp [prepared]

theorem prepared_sender (topic : String) (msg : Envelope) :
    (prepared topic msg).sender = msg.sender := by
  simp [prepared]

theorem prepared_method (topic : String) (msg : Envelope) :
    (prepared topic msg).method = (strSplitOn topic '/').getD 4 "" := by
  simp [prepared]

theorem serializeFix_some_spec {env : Envelope}
    (h : env.args.all JsValue.serializable = true) :
    ∃ out, serializeFix env = some out ∧ out.e = env.e ∧ out.sender = env.sender ∧
      (out.r = none ↔ env.r = none) := by
  unfold serializeFix
  by_cases hd : env.dataSerializable = true
  · exact ⟨env, by simp [hd], rfl, rfl, Iff.rfl⟩
  · have hr : ∃ v, env.r = some v := by
      unfold Envelope.dataSerializable at hd
      rcases henvr : env.r with _ | v
      · simp [h, henvr] at hd
      · exact ⟨v, rfl⟩
    obtain ⟨v, hv⟩ := hr
    refine ⟨{ env with r := some (.str notSerializableSentinel) }, ?_, rfl, rfl, ?_⟩
    · have hd' : ({ env with r := some (.str notSerializableSentinel) } : Envelope).dataSerializable = true := by
        unfold Envelope.dataSerializable
        simp [h, JsValue.serializable]
      simp [hd, hd']
    · simp [hv]

theorem serializeFix_of_r_none {env : Envelope}
    (h : env.args.all JsValue.serializable = true) (hr : env.r = none) :
    serializeFix env = some env := by
  have hd : env.dataSerializable = true := by
    unfold Envelope.dataSerializable
    simp [h, hr]
  unfold serializeFix
  simp [hd]

theorem serializeFix_nonser {env : Envelope}
    (h : env.args.all JsValue.serializable = true)
    (hr : env.r = some .nonSerializable) :
    serializeFix env = some { env with r := some (.str notSerializableSentinel) } := by
  have hd : env.dataSerializable = false := by
    unfold Envelope.dataSerializable
    simp [h, hr, JsValue.serializable]
  have hd' : ({ env with r := some (.str notSerializableSentinel) } : Envelope).dataSerializable = true := by
    unfold Envelope.dataSerializable
    simp [h, JsValue.serializable]
  unfold serializeFix
  simp [hd, hd']

theorem not_lifecycle_split {m : String}
    (hm : m ∉ (["__create__", "__createNamed__", "__getNamed__", "__delete__"] : List String)) :
    ¬m = "__create__" ∧ ¬m = "__createNamed__" ∧ ¬m = "__getNamed__" ∧ ¬m = "__delete__" := by
  simp only [List.mem_cons, List.not_mem_nil, or_false, not_or] at hm
  exact hm

theorem adapterCall_unknown_context (a : Adapter) (env : Envelope)
    (hm : env.method ∉ (["__create__", "__createNamed__", "__getNamed__", "__delete__"] : List String))
    (hc : env.context ∉ a.classes) (hi : alookup env.context a.instances = none) :
    adapterCall a env =
      (a, { env with r := none, e := some ("Could not find context: " ++ env.context) }) := by
  obtain ⟨h1, h2, h3, h4⟩ := not_lifecycle_split hm
  unfold adapterCall
  rw [if_neg h1, if_neg h2, if_neg h3, if_neg h4, if_neg hc, hi]

theorem adapterCall_unknown_static_fn (a : Adapter) (env : Envelope)
    (hm : env.method ∉ (["__create__", "__createNamed__", "__getNamed__", "__delete__"] : List String))
    (hc : env.context ∈ a.classes)
    (hf : env.method ∉ fnsOf a.staticFns env.context) :
    adapterCall a env =
      (a, { env with r := none, e := some ("Could not find function: " ++ env.method) }) := by
  obtain ⟨h1, h2, h3, h4⟩ := not_lifecycle_split hm
  unfold adapterCall
  rw [if_neg h1, if_neg h2, if_neg h3, if_neg h4, if_pos hc, if_neg hf]

theorem adapterCall_unknown_member_fn (a : Adapter) (env : Envelope)
    (hm : env.method ∉ (["__create__", "__createNamed__", "__getNamed__", "__delete__"] : List String))
    (hc : env.context ∉ a.classes) (cls : String)
    (hi : alookup env.context a.instances = some cls)
    (hf : env.method ∉ fnsOf a.memberFns cls) :
    adapterCall a env =
      (a, { env with r := none, e := some ("Could not find function: " ++ env.method) }) := by
  obtain ⟨h1, h2, h3, h4⟩ := not_lifecycle_split hm
  unfold adapterCall
  rw [if_neg h1, if_neg h2, if_neg h3, if_neg h4, if_neg hc, hi]
  dsimp only
  rw [if_neg hf]

theorem adapterCall_delete (a : Adapter) (env : Envelope)
    (hm : env.method = "__delete__") :
    ∃ b, (adapterCall a env).2 = { env with r := some (.bool b), e := none } := by
  unfold adapterCall
  rw [if_neg (by simp [hm]), if_neg (by simp [hm]), if_neg (by simp [hm]), if_pos hm]
  dsimp only
  split
  · exact ⟨true, rfl⟩
  · exact ⟨false, rfl⟩

theorem lifecycleStep_other (st : AgentState) (cn i m : String) (json : Envelope)
    (hm : m ∉ (["__create__", "__createNamed__", "__getNamed__", "__delete__"] : List String)) :
    lifecycleStep st cn i m json = (st, [], false) := by
  obtain ⟨h1, h2, h3, h4⟩ := not_lifecycle_split hm
  unfold lifecycleStep
  rw [if_neg h1, if_neg h2, if_neg h3, if_neg h4]

theorem lifecycleStep_delete (st : AgentState) (cn i : String) (json : Envelope) :
    lifecycleStep st cn i "__delete__" json =
      ((unregisterInstance st (asId json.args.head?) json.sender).1,
        unsubscribeMethodsOfDeletedInstance st cn i
          ++ (unregisterInstance st (asId json.args.head?) json.sender).2.2,
        (unregisterInstance st (asId json.args.head?) json.sender).2.1) := by
  unfold lifecycleStep
  rw [if_neg (by decide), if_neg (by decide), if_neg (by decide), if_pos rfl]

theorem lifecycleStep_createNamed_new (st : AgentState) (cn i : String) (json : Envelope)
    (h : hasNamedInstance st (asId json.r) = false) :
    lifecycleStep st cn i "__createNamed__" json =
      ((registerNamedInstance st (asId json.r) json.sender).1,
        subscribeToMethodsOfNewInstance st cn (asId json.r)
          ++ (registerNamedInstance st (asId json.r) json.sender).2,
        true) := by
  unfold lifecycleStep
  rw [if_neg (by decide), if_pos rfl]
  dsimp only
  rw [if_neg (by simp [h])]

theorem unregisterInstance_found {st : AgentState} {i c : String}
    (hun : ∀ entry, alookup c st.unnamedInstances = some entry → i ∉ entry)
    (hnamed : (st.namedInstances.any fun p => i ∈ p.2) = true) :
    (unregisterInstance st i c).2.1 = true := by
  unfold unregisterInstance unregisterNamedBranch
  split
  · rename_i entry heq
    rw [if_neg (by simpa using hun entry heq)]
    exact hnamed
  · exact hnamed

theorem registerUnnamedInstance_base (st : AgentState) (i c : String) :
    baseTopic (registerUnnamedInstance st i c).1 = baseTopic st := by
  unfold registerUnnamedInstance
  split
  · rfl
  · split <;> rfl

theorem registerNamedInstance_base (st : AgentState) (i c : String) :
    baseTopic (registerNamedInstance st i c).1 = baseTopic st := by
  unfold registerNamedInstance
  split
  · rfl
  · split <;> rfl

theorem unregisterInstance_base (st : AgentState) (i c : String) :
    baseTopic (unregisterInstance st i c).1 = baseTopic st := by
  unfold unregisterInstance unregisterNamedBranch
  split
  · split
    · dsimp only
      split <;> rfl
    · rfl
  · rfl

theorem registerNamedInstance_domain (st : AgentState) (i c : String) :
    (registerNamedInstance st i c).1.domain = st.domain := by
  unfold registerNamedInstance
  split
  · rfl
  · split <;> rfl

theorem registerNamedInstance_agent (st : AgentState) (i c : String) :
    (registerNamedInstance st i c).1.agent = st.agent := by
  unfold registerNamedInstance
  split
  · rfl
  · split <;> rfl

theorem unregisterInstance_domain (st : AgentState) (i c : String) :
    (unregisterInstance st i c).1.domain = st.domain := by
  unfold unregisterInstance unregisterNamedBranch
  split
  · split
    · dsimp only
      split <;> rfl
    · rfl
  · rfl

theorem unregisterInstance_agent (st : AgentState) (i c : String) :
    (unregisterInstance st i c).1.agent = st.agent := by
  unfold unregisterInstance unregisterNamedBranch
  split
  · split
    · dsimp only
      split <;> rfl
    · rfl
  · rfl

theorem lifecycleStep_base (st : AgentState) (cn i m : String) (json : Envelope) :
    baseTopic (lifecycleStep st cn i m json).1 = baseTopic st := by
  unfold lifecycleStep
  dsimp only
  split
  · exact registerUnnamedInstance_base ..
  · split
    · split
      · exact registerNamedInstance_base ..
      · exact registerNamedInstance_base ..
    · split
      · split
        · exact registerNamedInstance_base ..
        · rfl
      · split
        · exact unregisterInstance_base ..
        · rfl

/-- A five-level topic is routed to the RPC body. -/
theorem handleMessage_len5 (st : AgentState) (topic : String) (msg : Envelope)
    (h5 : (strSplitOn topic '/').length = 5) :
    handleMessage st topic msg = handleRpc st topic msg := by
  unfold handleMessage
  rw [if_neg (by simp [h5]), if_pos h5]

/-! ### Concrete fixtures -/

/-- A small adapter registry for concrete runs: one class `C` with one
registered instance `i1`, a static function returning a non-serializable
value, and one event registration of client `a/b/c`. -/
def a₀ : Adapter :=
  { classes := ["C"],
    instances := [("i1", "C")],
    staticFns := [("C", ["foo", "getObj", "__create__", "__createNamed__", "__getNamed__", "__delete__"])],
    memberFns := [("C", ["bar"])],
    impl := [(("C", "getObj"), Sum.inr JsValue.nonSerializable),
             (("C", "foo"), Sum.inr (JsValue.str "ok")),
             (("i1", "bar"), Sum.inr (JsValue.bool true))],
    listeners := [("a/b/c", "cb1")],
    nextId := 0 }

/-- An agent on domain `d`, name `a`, tracking client `client1` as the owner
of the single anonymous instance `i1`. -/
def st₀ : AgentState :=
  { domain := "d", agent := "a",
    unnamedInstances := [("client1", ["i1"])],
    adapter := a₀ }

/-- Like `st₀`, but the tracked anonymous client is the three-level reply
topic `a/b/c` (the shape under which `__clientInfo__` messages arrive). -/
def stc : AgentState :=
  { domain := "d", agent := "a",
    unnamedInstances := [("a/b/c", ["i1"])],
    adapter := a₀ }

/-! ### Claims -/

/-- C3: every received well-formed RPC message (topic of exactly five
levels; its payload parsed, so the arguments are serializable) makes the
agent publish exactly one reply envelope to the envelope's sender topic, and
that reply carries either `data.r` or `data.e` set, never both and never
neither. -/
theorem handleMessage_publishes_exactly_one_reply
    (st : AgentState) (topic : String) (msg : Envelope)
    (h5 : (strSplitOn topic '/').length = 5)
    (hargs : msg.args.all JsValue.serializable = true) :
    ∃ env, envReplies msg.sender (handleMessage st topic msg).2 = [env] ∧
      replyWellFormed env := by
  rw [handleMessage_len5 st topic msg h5]
  have hargs' : (adapterCall st.adapter (prepared topic msg)).2.args.all JsValue.serializable = true := by
    rw [adapterCall_args, prepared_args]
    exact hargs
  obtain ⟨out, hout, houte, houts, houtr⟩ := serializeFix_some_spec hargs'
  have hsender : (adapterCall st.adapter (prepared topic msg)).2.sender = msg.sender := by
    rw [adapterCall_sender, prepared_sender]
  refine ⟨out, ?_, ?_⟩
  · unfold handleRpc
    dsimp only
    rw [hout]
    dsimp only
    rw [envReplies_append, envReplies_append, envReplies_append]
    rw [envReplies_eq_nil (lifecycleStep_acts _ _ _ _ _)]
    rw [envReplies_classInfo_ite, envReplies_classInfo_ite]
    rw [envReplies_single_env out false hsender]
    rfl
  · rcases adapterCall_wf st.adapter (prepared topic msg) with ⟨hr, he⟩ | ⟨hr, he⟩
    · exact Or.inl ⟨fun hc => hr (houtr.mp hc), houte.trans he⟩
    · exact Or.inr ⟨houtr.mpr hr, by rw [houte]; exact he⟩

/-- C3 witness: a concrete member call answered by exactly one well-formed
reply. -/
theorem handleMessage_publishes_exactly_one_reply_witness :
    ∃ env, envReplies "s1" (handleMessage st₀ "d/a/C/i1/bar" { sender := "s1" }).2 = [env] ∧
      replyWellFormed env :=
  handleMessage_publishes_exactly_one_reply st₀ "d/a/C/i1/bar" { sender := "s1" }
    (by decide) (by decide)

/-- C4: dispatching an envelope whose context is unknown sets `data.e` to
`Could not find context: <name>`, and dispatching one whose method is
unknown (static or member) sets `data.e` to `Could not find function:
<name>`; in all cases the envelope is returned normally to the caller (the
reply is published to the sender), with `data.r` unset. -/
theorem handleMessage_lookup_errors
    (st : AgentState) (topic : String) (msg : Envelope)
    (h5 : (strSplitOn topic '/').length = 5)
    (hargs : msg.args.all JsValue.serializable = true)
    (hm : (strSplitOn topic '/').getD 4 "" ∉
      (["__create__", "__createNamed__", "__getNamed__", "__delete__"] : List String)) :
    ((prepared topic msg).context ∉ st.adapter.classes →
      alookup (prepared topic msg).context st.adapter.instances = none →
      envReplies msg.sender (handleMessage st topic msg).2 =
        [{ prepared topic msg with
            r := none,
            e := some ("Could not find context: " ++ (prepared topic msg).context) }]) ∧
    ((prepared topic msg).context ∈ st.adapter.classes →
      (prepared topic msg).method ∉ fnsOf st.adapter.staticFns (prepared topic msg).context →
      envReplies msg.sender (handleMessage st topic msg).2 =
        [{ prepared topic msg with
            r := none,
            e := some ("Could not find function: " ++ (prepared topic msg).method) }]) ∧
    (∀ cls, (prepared topic msg).context ∉ st.adapter.classes →
      alookup (prepared topic msg).context st.adapter.instances = some cls →
      (prepared topic msg).method ∉ fnsOf st.adapter.memberFns cls →
      envReplies msg.sender (handleMessage st topic msg).2 =
        [{ prepared topic msg with
            r := none,
            e := some ("Could not find function: " ++ (prepared topic msg).method) }]) := by
  have hm' : (prepared topic msg).method ∉
      (["__create__", "__createNamed__", "__getNamed__", "__delete__"] : List String) := by
    rw [prepared_method]
    exact hm
  have hargs' : ∀ e', ({ prepared topic msg with r := none, e := some e' } : Envelope).args.all
      JsValue.serializable = true := by
    intro e'
    simpa [prepared] using hargs
  refine ⟨?_, ?_, ?_⟩
  · intro hc hi
    rw [handleMessage_len5 st topic msg h5]
    have hcall := adapterCall_unknown_context st.adapter (prepared topic msg) hm' hc hi
    unfold handleRpc
    dsimp only
    rw [hcall]
    dsimp only
    rw [serializeFix_of_r_none (hargs' _) rfl]
    dsimp only
    rw [lifecycleStep_other _ _ _ _ _ hm]
    simp [envReplies, prepared]
  · intro hc hf
    rw [handleMessage_len5 st topic msg h5]
    have hcall := adapterCall_unknown_static_fn st.adapter (prepared topic msg) hm' hc hf
    unfold handleRpc
    dsimp only
    rw [hcall]
    dsimp only
    rw [serializeFix_of_r_none (hargs' _) rfl]
    dsimp only
    rw [lifecycleStep_other _ _ _ _ _ hm]
    simp [envReplies, prepared]
  · intro cls hc hi hf
    rw [handleMessage_len5 st topic msg h5]
    have hcall := adapterCall_unknown_member_fn st.adapter (prepared topic msg) hm' hc cls hi hf
    unfold handleRpc
    dsimp only
    rw [hcall]
    dsimp only
    rw [serializeFix_of_r_none (hargs' _) rfl]
    dsimp only
    rw [lifecycleStep_other _ _ _ _ _ hm]
    simp [envReplies, prepared]

/-- C4 witness: concrete unknown-context, unknown-static-function and
unknown-member-function calls, each answered normally with the error in
`data.e`. -/
theorem handleMessage_lookup_errors_witness :
    (envReplies "s2" (handleMessage st₀ "d/a/X/i9/zap" { sender := "s2" }).2 =
      [{ prepared "d/a/X/i9/zap" { sender := "s2" } with
          r := none,
          e := some ("Could not find context: "
            ++ (prepared "d/a/X/i9/zap" ({ sender := "s2" } : Envelope)).context) }]) ∧
    (envReplies "s3" (handleMessage st₀ "d/a/C/__static__/zap" { sender := "s3" }).2 =
      [{ prepared "d/a/C/__static__/zap" { sender := "s3" } with
          r := none,
          e := some ("Could not find function: "
            ++ (prepared "d/a/C/__static__/zap" ({ sender := "s3" } : Envelope)).method) }]) ∧
    (envReplies "s4" (handleMessage st₀ "d/a/C/i1/zap" { sender := "s4" }).2 =
      [{ prepared "d/a/C/i1/zap" { sender := "s4" } with
          r := none,
          e := some ("Could not find function: "
            ++ (prepared "d/a/C/i1/zap" ({ sender := "s4" } : Envelope)).method) }]) := by
  refine ⟨?_, ?_, ?_⟩
  · exact (handleMessage_lookup_errors st₀ "d/a/X/i9/zap" { sender := "s2" }
      (by decide) (by decide) (by decide)).1 (by decide) (by decide)
  · exact (handleMessage_lookup_errors st₀ "d/a/C/__static__/zap" { sender := "s3" }
      (by decide) (by decide) (by decide)).2.1 (by decide) (by decide)
  · exact (handleMessage_lookup_errors st₀ "d/a/C/i1/zap" { sender := "s4" }
      (by decide) (by decide) (by decide)).2.2 "C" (by decide) (by decide) (by decide)

/-- Like `st₀`, but with a named instance `n1` registered for client `s6`. -/
def stn : AgentState :=
  { domain := "d", agent := "a",
    unnamedInstances := [("client1", ["i1"])],
    namedInstances := [("s6", ["n1"])],
    adapter := { a₀ with instances := [("i1", "C"), ("n1", "C")] } }

/-- C5: within the handling of a single RPC message, the retained
`__classInfo__` republication is adjacent to the reply: for a
`__createNamed__` that created a previously non-existent named instance it
comes right after the reply publication, and for a `__delete__` of a named
instance it comes right before it. -/
theorem handleMessage_classInfo_reply_ordering
    (st : AgentState) (topic : String) (msg : Envelope)
    (h5 : (strSplitOn topic '/').length = 5)
    (hargs : msg.args.all JsValue.serializable = true) :
    ((strSplitOn topic '/').getD 4 "" = "__createNamed__" →
      hasNamedInstance st (asId (adapterCall st.adapter (prepared topic msg)).2.r) = false →
      ∃ pre env insts, (handleMessage st topic msg).2 = pre ++
        [Action.publish msg.sender (.env env) false,
         Action.publish
           (baseTopic st ++ "/" ++ (strSplitOn topic '/').getD 2 "" ++ "/__classInfo__")
           (.classInfo ((strSplitOn topic '/').getD 2 "") insts) true]) ∧
    ((strSplitOn topic '/').getD 4 "" = "__delete__" →
      (∀ entry, alookup msg.sender st.unnamedInstances = some entry →
        asId msg.args.head? ∉ entry) →
      (st.namedInstances.any fun p => asId msg.args.head? ∈ p.2) = true →
      ∃ pre env insts, (handleMessage st topic msg).2 = pre ++
        [Action.publish
           (baseTopic st ++ "/" ++ (strSplitOn topic '/').getD 2 "" ++ "/__classInfo__")
           (.classInfo ((strSplitOn topic '/').getD 2 "") insts) true,
         Action.publish msg.sender (.env env) false]) := by
  have hargs' : (adapterCall st.adapter (prepared topic msg)).2.args.all JsValue.serializable = true := by
    rw [adapterCall_args, prepared_args]
    exact hargs
  have hsender : (adapterCall st.adapter (prepared topic msg)).2.sender = msg.sender := by
    rw [adapterCall_sender, prepared_sender]
  obtain ⟨out, hout, -, -, -⟩ := serializeFix_some_spec hargs'
  constructor
  · intro hm4 hnew
    rw [handleMessage_len5 st topic msg h5]
    unfold handleRpc
    dsimp only
    rw [hm4, hout]
    dsimp only
    have hnew' : hasNamedInstance
        { st with adapter := (adapterCall st.adapter (prepared topic msg)).1 }
        (asId (adapterCall st.adapter (prepared topic msg)).2.r) = false := hnew
    rw [lifecycleStep_createNamed_new _ _ _ _ hnew']
    refine ⟨subscribeToMethodsOfNewInstance { st with adapter := (adapterCall st.adapter (prepared topic msg)).1 }
        ((strSplitOn topic '/').getD 2 "")
        (asId (adapterCall st.adapter (prepared topic msg)).2.r)
      ++ (registerNamedInstance { st with adapter := (adapterCall st.adapter (prepared topic msg)).1 }
        (asId (adapterCall st.adapter (prepared topic msg)).2.r)
        (adapterCall st.adapter (prepared topic msg)).2.sender).2,
      out,
      instancesOf (registerNamedInstance { st with adapter := (adapterCall st.adapter (prepared topic msg)).1 }
        (asId (adapterCall st.adapter (prepared topic msg)).2.r)
        (adapterCall st.adapter (prepared topic msg)).2.sender).1.adapter
        ((strSplitOn topic '/').getD 2 ""), ?_⟩
    simp [publishClassInfoMessage, hsender, registerNamedInstance_domain,
      registerNamedInstance_agent, baseTopic]
  · intro hm4 hun hnamed
    rw [handleMessage_len5 st topic msg h5]
    unfold handleRpc
    dsimp only
    rw [hm4, hout]
    dsimp only
    rw [lifecycleStep_delete]
    have hfound : (unregisterInstance { st with adapter := (adapterCall st.adapter (prepared topic msg)).1 }
        (asId (adapterCall st.adapter (prepared topic msg)).2.args.head?)
        msg.sender).2.1 = true := by
      rw [adapterCall_args, prepared_args]
      exact unregisterInstance_found hun hnamed
    refine ⟨unsubscribeMethodsOfDeletedInstance { st with adapter := (adapterCall st.adapter (prepared topic msg)).1 }
        ((strSplitOn topic '/').getD 2 "") ((strSplitOn topic '/').getD 3 "")
      ++ (unregisterInstance { st with adapter := (adapterCall st.adapter (prepared topic msg)).1 }
        (asId (adapterCall st.adapter (prepared topic msg)).2.args.head?)
        (adapterCall st.adapter (prepared topic msg)).2.sender).2.2,
      out,
      instancesOf (unregisterInstance { st with adapter := (adapterCall st.adapter (prepared topic msg)).1 }
        (asId (adapterCall st.adapter (prepared topic msg)).2.args.head?)
        (adapterCall st.adapter (prepared topic msg)).2.sender).1.adapter
        ((strSplitOn topic '/').getD 2 ""), ?_⟩
    simp [publishClassInfoMessage, hsender, hfound, unregisterInstance_domain,
      unregisterInstance_agent, baseTopic]

/-- C5 witness: a concrete fresh `__createNamed__` and a concrete named
`__delete__`, with the class-info publication respectively right after and
right before the reply. -/
theorem handleMessage_classInfo_reply_ordering_witness :
    (∃ pre env insts,
      (handleMessage st₀ "d/a/C/__static__/__createNamed__"
          { args := [JsValue.str "alice"], sender := "s5" }).2 = pre ++
        [Action.publish "s5" (.env env) false,
         Action.publish
           (baseTopic st₀ ++ "/" ++ (strSplitOn "d/a/C/__static__/__createNamed__" '/').getD 2 "" ++ "/__classInfo__")
           (.classInfo ((strSplitOn "d/a/C/__static__/__createNamed__" '/').getD 2 "") insts) true]) ∧
    (∃ pre env insts,
      (handleMessage stn "d/a/C/__static__/__delete__"
          { args := [JsValue.str "n1"], sender := "s6" }).2 = pre ++
        [Action.publish
           (baseTopic stn ++ "/" ++ (strSplitOn "d/a/C/__static__/__delete__" '/').getD 2 "" ++ "/__classInfo__")
           (.classInfo ((strSplitOn "d/a/C/__static__/__delete__" '/').getD 2 "") insts) true,
         Action.publish "s6" (.env env) false]) := by
  constructor
  · exact (handleMessage_classInfo_reply_ordering st₀ "d/a/C/__static__/__createNamed__"
      { args := [JsValue.str "alice"], sender := "s5" } (by decide) (by decide)).1
      (by decide) (by decide)
  · exact (handleMessage_classInfo_reply_ordering stn "d/a/C/__static__/__delete__"
      { args := [JsValue.str "n1"], sender := "s6" } (by decide) (by decide)).2
      (by decide) (by decide) (by decide)

/-- C8: if serialization of the mutated reply envelope fails after dispatch
(the returned value is not serializable), `data.r` is replaced by the exact
sentinel `__vrpc::not-serializable__` and the reply is still published to the
sender topic, so the caller is always answered. -/
theorem handleMessage_substitutes_not_serializable_sentinel
    (st : AgentState) (topic : String) (msg : Envelope)
    (h5 : (strSplitOn topic '/').length = 5)
    (hargs : msg.args.all JsValue.serializable = true)
    (hr : (adapterCall st.adapter (prepared topic msg)).2.r = some .nonSerializable) :
    envReplies msg.sender (handleMessage st topic msg).2 =
      [{ (adapterCall st.adapter (prepared topic msg)).2 with
          r := some (.str notSerializableSentinel) }] := by
  rw [handleMessage_len5 st topic msg h5]
  have hargs' : (adapterCall st.adapter (prepared topic msg)).2.args.all JsValue.serializable = true := by
    rw [adapterCall_args, prepared_args]
    exact hargs
  have hsender : (adapterCall st.adapter (prepared topic msg)).2.sender = msg.sender := by
    rw [adapterCall_sender, prepared_sender]
  have hout := serializeFix_nonser hargs' hr
  unfold handleRpc
  dsimp only
  rw [hout]
  dsimp only
  rw [envReplies_append, envReplies_append, envReplies_append,
    envReplies_eq_nil (lifecycleStep_acts _ _ _ _ _),
    envReplies_classInfo_ite, envReplies_classInfo_ite,
    envReplies_single_env _ false hsender]
  rfl

/-- C8 witness: a concrete static call returning a non-serializable value is
answered with the sentinel in `data.r`. -/
theorem handleMessage_substitutes_not_serializable_sentinel_witness :
    envReplies "s9" (handleMessage st₀ "d/a/C/__static__/getObj" { sender := "s9" }).2 =
      [{ (adapterCall st₀.adapter (prepared "d/a/C/__static__/getObj" { sender := "s9" })).2 with
          r := some (.str notSerializableSentinel) }] :=
  handleMessage_substitutes_not_serializable_sentinel st₀ "d/a/C/__static__/getObj"
    { sender := "s9" } (by decide) (by decide) (by decide)

/-- C1 (failing evaluation): handling the `__delete__` that removes the last
anonymous instance mapped to `client1` leaves the now-empty tracker entry in
place and performs no unsubscription from `client1/__clientInfo__` — the
source guards the cleanup with `entry.length === 0`, reading the absent
`length` property of a `Set`, so the broker-side subscription survives. -/
theorem handleMessage_delete_last_keeps_clientInfo_subscription :
    (handleMessage st₀ "d/a/C/__static__/__delete__"
        { args := [JsValue.str "i1"], sender := "client1" }).1.unnamedInstances =
      [("client1", [])] ∧
    Action.unsubscribe "client1/__clientInfo__" ∉
      (handleMessage st₀ "d/a/C/__static__/__delete__"
        { args := [JsValue.str "i1"], sender := "client1" }).2 ∧
    applySubActions ["client1/__clientInfo__"]
      (handleMessage st₀ "d/a/C/__static__/__delete__"
        { args := [JsValue.str "i1"], sender := "client1" }).2 =
      ["client1/__clientInfo__"] := by
  decide

/-- C2 (failing evaluation): a retained `{status: "offline"}` on
`a/b/c/__clientInfo__`, with `a/b/c` tracked as the owner of anonymous
instance `i1`, deletes no instance, drops no event listener, and
unsubscribes from the wrong topic `a/b/c/__cli/__clientInfo__`: the source
recovers the client id with `topic.slice(0, -9)` although the suffix
`/__clientInfo__` is 15 characters long. -/
theorem handleClientInfo_offline_misparses_clientId :
    handleMessage stc "a/b/c/__clientInfo__" { status := some "offline" } =
      (stc, [Action.unsubscribe "a/b/c/__cli/__clientInfo__"]) ∧
    Action.unsubscribe "a/b/c/__clientInfo__" ∉
      (handleMessage stc "a/b/c/__clientInfo__" { status := some "offline" }).2 ∧
    (handleMessage stc "a/b/c/__clientInfo__"
        { status := some "offline" }).1.adapter.instances = [("i1", "C")] ∧
    (handleMessage stc "a/b/c/__clientInfo__"
        { status := some "offline" }).1.adapter.listeners = [("a/b/c", "cb1")] := by
  decide

/-- C6 (failing evaluation): the `__delete__` of instance `i1`, arriving as
a static call on `d/a/C/__static__/__delete__`, unsubscribes from
`d/a/C/__static__/+` (built from the topic's instance token) and not from
the deleted instance's dispatch wildcard `d/a/C/i1/+` (which would be built
from the envelope's `_1` argument, as the next source line uses it). -/
theorem handleMessage_delete_unsubscribes_topic_token :
    Action.unsubscribe "d/a/C/__static__/+" ∈
      (handleMessage st₀ "d/a/C/__static__/__delete__"
        { args := [JsValue.str "i1"], sender := "client1" }).2 ∧
    Action.unsubscribe "d/a/C/i1/+" ∉
      (handleMessage st₀ "d/a/C/__static__/__delete__"
        { args := [JsValue.str "i1"], sender := "client1" }).2 := by
  decide

/-- C7: after a reconnect event, the next connect handler republishes only
the retained online agent-info (no subscriptions, no class-info
publications) and clears the reconnect flag, so a later connect runs the
first-connect path again. -/
theorem handleConnect_after_reconnect_republishes_agentInfo_only (st : AgentState) :
    handleConnect (handleReconnect st).1 =
      ({ st with isReconnect := false },
        [Action.publish (baseTopic st ++ "/__agentInfo__") (Payload.agentInfo "online") true,
         Action.emit "connect"]) := by
  simp [handleReconnect, handleConnect, publishAgentInfo, baseTopic]

/-- The constructor result is a success. -/
def isOkResult : Except String AgentState → Bool
  | .ok _ => true
  | .error _ => false

/-- C9: the `VrpcAgent` constructor succeeds exactly when the domain is
present (a non-empty string) and free of `+ / # *`, and the agent name
likewise; otherwise the validation throws. -/
theorem constructAgent_ok_iff (domain agent : Option String) (a : Adapter) :
    isOkResult (constructAgent domain agent a) = true ↔
      ((∃ s, domain = some s ∧ s ≠ "" ∧
          (s.toList.any fun c => c ∈ (['+', '/', '#', '*'] : List Char)) = false) ∧
       (∃ s, agent = some s ∧ s ≠ "" ∧
          (s.toList.any fun c => c ∈ (['+', '/', '#', '*'] : List Char)) = false)) := by
  unfold constructAgent validateDomain validateAgent
  rcases domain with _ | d <;> rcases agent with _ | ag <;>
    simp [jsFalsyStr, isOkResult] <;> split_ifs <;> simp_all [isOkResult] <;> aesop

/-- C10: calling `end()` with no broker client, or with a disconnected one,
emits the `end` event and returns at once: nothing is published, no retained
slot is cleared, even when `unregister` is true. -/
theorem agentEnd_disconnected_emits_end_only
    (st : AgentState) (client : Option MqttClient) (unreg : Bool)
    (h : client = none ∨ client = some ⟨false⟩) :
    agentEnd st client unreg = [Action.emit "end"] := by
  rcases h with h | h <;> subst h <;> simp [agentEnd]

/-- C10 witness: `end({unregister: true})` before `serve` created a client. -/
theorem agentEnd_disconnected_emits_end_only_witness :
    agentEnd st₀ none true = [Action.emit "end"] :=
  agentEnd_disconnected_emits_end_only st₀ none true (Or.inl rfl)

end Vrpc
